import Mathlib

/-!
Verification of the natural-language-to-SQL-to-visualization pipeline of the
my-spotify-journey repository, as a shallow embedding in Lean 4.

The embedded source locations are:
  * `validate_query`                — src/dashboard/db_utils.py, lines 141-162
  * `execute_visualization_query`   — src/backend/db/duckdb_helper.py, lines 299-316
  * `SpotifyLangChain.analyze_query`— src/backend/llm/langchain_integration.py, lines 101-256
  * `generate_simplified_query`     — src/backend/llm/langchain_integration.py, lines 258-306
  * `SQLVisualizationMapper`        — src/dashboard/visualization_mapper.py

External collaborators (the DuckDB store, the language-model client, Python's
`json.loads`, and polars' row-to-DataFrame conversion) are modelled as explicit
function parameters; everything written by the repository itself is translated
statement by statement.
-/

namespace SpotifyJourney

/-! ## Python string primitives used by the source -/

/-- The `{` character (written via its code point). -/
def lbrace : Char := Char.ofNat 123

/-- The `}` character (written via its code point). -/
def rbrace : Char := Char.ofNat 125

/-- Remove the characters satisfying `p` from both ends of a string: the common
core of Python's `str.strip()` and `str.strip(chars)`. -/
def stripEnds (p : Char → Bool) (s : String) : String :=
  String.mk (((s.toList.dropWhile p).reverse.dropWhile p).reverse)

/-- Python `str.strip()` (whitespace from both ends; Python's set also holds
`\v` and `\f`, which never occur in the strings the pipeline handles). -/
def pyStrip (s : String) : String :=
  stripEnds Char.isWhitespace s

/-- Python `str.strip(c)` for a single character `c`: removes **all** leading
and trailing occurrences of `c`, not just one. -/
def pyStripChar (c : Char) (s : String) : String :=
  stripEnds (· == c) s

/-- Python's substring test `needle in hay` (`true` on the empty needle, as in
Python). -/
def containsSubstringChars (needle : List Char) : List Char → Bool
  | [] => needle.isPrefixOf []
  | c :: rest => needle.isPrefixOf (c :: rest) || containsSubstringChars needle rest

/-- Python's substring test on strings. -/
def pyContains (hay needle : String) : Bool :=
  containsSubstringChars needle.toList hay.toList

/-- Python `str.upper()` (character-wise; the source only uppercases ASCII
SQL text). -/
def pyUpper (s : String) : String :=
  String.mk (s.toList.map Char.toUpper)

/-- Python `str.lower()` (character-wise). -/
def pyLower (s : String) : String :=
  String.mk (s.toList.map Char.toLower)

/-- Python `str.startswith(p)`. -/
def pyStartsWith (s p : String) : Bool :=
  p.toList.isPrefixOf s.toList

/-- Python `str.find(c)` for a single character, as an `Option` (`none` models
the return value `-1`). -/
def pyFindChar (s : List Char) (c : Char) : Option Nat :=
  s.indexOf? c

/-- Python `str.rfind(c)` for a single character, as an `Option`. -/
def pyRFindChar (s : List Char) (c : Char) : Option Nat :=
  match s.reverse.indexOf? c with
  | none => none
  | some i => some (s.length - 1 - i)

/-! ## `validate_query` — src/dashboard/db_utils.py lines 141-162 -/

/-- The keyword blacklist of `validate_query` (lines 144-147). -/
def dangerous_keywords : List String :=
  ["DROP", "DELETE", "TRUNCATE", "UPDATE", "INSERT",
   "ALTER", "CREATE", "GRANT", "REVOKE", "EXEC"]

/-- `validate_query` (lines 141-162): uppercase the query, reject it when any
blacklisted keyword occurs as a substring, then reject it unless it starts
with `SELECT`. -/
def validate_query (query : String) : Bool :=
  let query_upper := pyUpper query
  if dangerous_keywords.any (fun keyword => pyContains query_upper keyword) then
    false
  else if ¬ pyStartsWith query_upper "SELECT" then
    false
  else
    true

/-! ## `execute_visualization_query` — src/backend/db/duckdb_helper.py lines 299-316

The DuckDB connection is the external store; it is modelled as a function from
a SQL string to either result rows or an error message.  The embedding also
returns the list of statements handed to the store, so that forwarding is
observable.  A row is modelled as an association list from column name to a
(rendered) cell value. -/

/-- A result row: column name to cell value. -/
abbrev Row := List (String × String)

/-- `execute_visualization_query` (lines 299-316): forwards the SQL string to
`conn.execute` unconditionally; on a store error it logs and returns an empty
DataFrame (here: the empty row list).  The second component is the trace of
statements forwarded to the store. -/
def execute_visualization_query (store : String → Except String (List Row))
    (sql : String) : List Row × List String :=
  match store sql with
  | .ok rows => (rows, [sql])
  | .error _ => ([], [sql])

/-! ## JSON values and the intent-analysis parse step
     src/backend/llm/langchain_integration.py lines 119-164

`json.loads` is Python's standard library, external to the repository; it is
modelled as an abstract function `String → Option Json` (a `none` models a
`JSONDecodeError`). -/

/-- A parsed JSON value.  Numbers are modelled as integers; the pipeline never
computes with numeric JSON values. -/
inductive Json where
  | null
  | bool (b : Bool)
  | num (n : Int)
  | str (s : String)
  | arr (elems : List Json)
  | obj (fields : List (String × Json))
deriving Repr, BEq

/-- Is the value a Python `dict` (`isinstance(·, dict)`)? -/
def Json.isDict : Json → Bool
  | .obj _ => true
  | _ => false

/-- Python subscripting `value["k"]` with a string key: defined only on a dict
(elsewhere Python raises a `TypeError`, modelled as `none`; a missing key's
`KeyError` is likewise `none` — the source subscripts only keys it has already
checked for membership). -/
def jGet : Json → String → Option Json
  | .obj fields, k => (fields.find? (fun f => f.1 == k)).map (·.2)
  | _, _ => none

/-- Python membership `"k" in value`: key lookup on a dict, element equality on
a list, substring on a string, `TypeError` (here `none`) otherwise. -/
def pyIn (k : String) : Json → Option Bool
  | .obj fields => some (fields.any (fun f => f.1 == k))
  | .arr elems => some (elems.contains (.str k))
  | .str s => some (pyContains s k)
  | _ => none

/-- The required plan fields checked at line 137. -/
def required_fields : List String :=
  ["tables", "columns", "analysis_type", "visualization"]

/-- The membership pass of line 138: collect the required fields that are not
`in` the parsed value; `none` when membership raises (non-container value),
which the source's `except Exception` turns into an error response. -/
def missingRequired : List String → Json → Option (List String)
  | [], _ => some []
  | f :: rest, analysis =>
    match pyIn f analysis, missingRequired rest analysis with
    | some present, some missing => some (if present then missing else f :: missing)
    | _, _ => none

/-- The validation of lines 136-164: all four required fields must be present,
and `analysis["visualization"]` must be a dict containing `type` and
`dimensions`.  Every failure (including a `TypeError` caught by the source's
`except Exception`) becomes an error message; nothing is defaulted. -/
def validateAnalysis (analysis : Json) : Except String Json :=
  match missingRequired required_fields analysis with
  | none => .error "Error parsing schema analysis: argument of type is not iterable"
  | some missing_fields =>
    if missing_fields ≠ [] then
      .error ("Invalid schema analysis: missing required fields "
        ++ String.intercalate ", " missing_fields)
    else
      match jGet analysis "visualization" with
      | none => .error "Error parsing schema analysis: value is not subscriptable"
      | some viz =>
        if viz.isDict = true ∧ pyIn "type" viz = some true
            ∧ pyIn "dimensions" viz = some true then
          .ok analysis
        else
          .error "Invalid visualization specification in schema analysis"

/-- Lines 119-164: strip the raw model response, slice from the first `{` to
the last `}` when both occur (otherwise keep the whole stripped text), hand the
candidate to `json.loads` (abstract `jparse`), and validate.  A decode failure
is the error response of lines 153-158. -/
def parseAnalysisStep (jparse : String → Option Json) (schemaAnalysis : String) :
    Except String Json :=
  let analysisText := pyStrip schemaAnalysis
  let cs := analysisText.toList
  let jsonText :=
    match pyFindChar cs lbrace, pyRFindChar cs rbrace with
    | some start_idx, some last_idx =>
        String.mk ((cs.drop start_idx).take (last_idx + 1 - start_idx))
    | _, _ => analysisText
  match jparse jsonText with
  | none =>
      .error ("Failed to parse schema analysis. Raw response: "
        ++ String.mk (schemaAnalysis.toList.take 100) ++ "...")
  | some analysis => validateAnalysis analysis

/-! ## SQL cleanup — lines 175-177 (primary) and 299-301 (simplified) -/

/-- The backtick character (written via its code point). -/
def backtick : Char := Char.ofNat 96

/-- The single-quote character (written via its code point). -/
def squote : Char := Char.ofNat 39

/-- The double-quote character (written via its code point). -/
def dquote : Char := Char.ofNat 34

/-- Lines 176-177: strip surrounding whitespace, then strip the enclosing
backticks, single quotes and double quotes, in that order.  Each Python
`strip(c)` removes **all** enclosing occurrences of `c`. -/
def cleanupSqlMain (raw : String) : String :=
  pyStripChar dquote (pyStripChar squote (pyStripChar backtick (pyStrip raw)))

/-- Lines 300-301 of `generate_simplified_query`: the same cleanup, written at
its second occurrence in the source. -/
def cleanupSqlSimplified (raw : String) : String :=
  pyStripChar dquote (pyStripChar squote (pyStripChar backtick (pyStrip raw)))

/-- Modelled from the spec: the spec's words for the Synthesizer post-processing
(§4.2) — "strip surrounding whitespace, strip one layer of enclosing backticks
or quotes (exactly one pass — not iterative)".  Kept for the refinement
comparison with the source's `cleanupSqlMain`. -/
def cleanupSqlSpec (raw : String) : String :=
  let t := pyStrip raw
  let cs := t.toList
  match cs.head?, cs.getLast? with
  | some a, some b =>
    if cs.length ≥ 2 ∧ a = b ∧ (a = backtick ∨ a = squote ∨ a = dquote) then
      String.mk ((cs.drop 1).take (cs.length - 2))
    else t
  | _, _ => t

/-! ## The response envelope and the repair loop
     src/backend/llm/schemas.py lines 4-16 and
     src/backend/llm/langchain_integration.py lines 181-256 -/

/-- Python `str(value)` / f-string rendering of a JSON value (`repr` for the
elements of containers). -/
def pyReprJson : Json → String
  | .null => "None"
  | .bool true => "True"
  | .bool false => "False"
  | .num n => toString n
  | .str s => String.mk (squote :: s.toList) ++ String.mk [squote]
  | .arr elems => "[" ++ String.intercalate ", " (elems.attach.map
      (fun e => pyReprJson e.1)) ++ "]"
  | .obj fields => "\x7b" ++ String.intercalate ", " (fields.attach.map
      (fun f => String.mk (squote :: f.1.1.toList) ++ String.mk [squote] ++ ": "
        ++ pyReprJson f.1.2)) ++ "\x7d"
decreasing_by
  · simp only [Json.arr.sizeOf_spec]
    exact Nat.lt_add_left 1 (List.sizeOf_lt_of_mem e.2)
  · simp only [Json.obj.sizeOf_spec]
    refine Nat.lt_add_left 1 (lt_trans ?_ (List.sizeOf_lt_of_mem f.2))
    obtain ⟨a, b⟩ := f.1
    simp only [Prod.mk.sizeOf_spec]
    omega

/-- Python f-string interpolation of a JSON value (top-level strings are shown
bare). -/
def pyFStr : Json → String
  | .str s => s
  | j => pyReprJson j

/-- The dictionary returned by the executor callable expected at lines 187-217:
`success`, `data` and `error` entries. -/
structure QueryResult where
  success : Bool
  data : List Row := []
  error : String := ""
deriving Repr, BEq

/-- `VisualizationSpec` (schemas.py lines 4-9); `config` is never set by
`analyze_query` and is omitted.  `type` and `dimensions` keep the raw JSON
values taken from the validated analysis. -/
structure VisualizationSpec where
  type : Json
  title : String
  dimensions : Json
deriving Repr, BEq

/-- `SpotifyAnalysisResponse` (schemas.py lines 11-16); optional fields default
to `none` as the pydantic fields default to `None`. -/
structure SpotifyAnalysisResponse where
  type : String
  content : String
  sql : Option String := none
  data : Option (List Row) := none
  visualization : Option VisualizationSpec := none
deriving Repr, BEq

/-- The visualization response of lines 221-235: the chart spec is rebuilt from
the validated analysis, `sql` is the active SQL and `data` comes from the last
executor result. -/
def vizResponse (analysis : Json) (question sql : String) (result : QueryResult) :
    SpotifyAnalysisResponse :=
  { type := "visualization",
    content := "Analysis of "
      ++ pyFStr ((jGet analysis "analysis_type").getD .null),
    sql := some sql,
    data := some result.data,
    visualization := some
      { type := (jGet ((jGet analysis "visualization").getD .null) "type").getD .null,
        title := question,
        dimensions :=
          (jGet ((jGet analysis "visualization").getD .null) "dimensions").getD .null } }

/-- The executor block of lines 185-242: run the primary candidate; on an
unsuccessful result return the error envelope of lines 193-197; on zero rows
try the (already cleaned) simplified candidate exactly once, but only when it
is non-empty and differs from the primary SQL (line 210); when the retry
succeeds with rows the simplified SQL becomes the active SQL (lines 214-217),
otherwise the primary SQL stays active while `result` retains the retry's
outcome (line 212).  The second component is the trace of SQL strings handed to
the executor. -/
def runWithRepair (executor : String → QueryResult) (sql_query : String)
    (simplified_query : Option String) (analysis : Json) (question : String) :
    SpotifyAnalysisResponse × List String :=
  let result := executor sql_query
  if result.success = false then
    ({ type := "error",
       content := "Query execution failed: " ++ result.error,
       sql := some sql_query }, [sql_query])
  else
    match simplified_query, result.data with
    | some sq, [] =>
      if sq ≠ "" ∧ sq ≠ sql_query then
        let result2 := executor sq
        if result2.success = true ∧ result2.data ≠ [] then
          (vizResponse analysis question sq result2, [sql_query, sq])
        else
          (vizResponse analysis question sql_query result2, [sql_query, sq])
      else
        (vizResponse analysis question sql_query result, [sql_query])
    | _, _ => (vizResponse analysis question sql_query result, [sql_query])

/-- `SpotifyLangChain.analyze_query` (lines 101-256): parse and validate the
intent analysis, clean the generated SQL, and — when an executor is provided
and the cleaned SQL is non-empty — run the repair loop; otherwise return the
bare SQL response of lines 244-249.  `jparse` models `json.loads`,
`schema_analysis` and `raw_sql` model the two language-model responses, and
`raw_simplified` models the `generate_simplified_query` response (`none` for
its exception path, which returns `None`).  The second component is the trace
of SQL strings handed to the executor. -/
def analyze_query (jparse : String → Option Json) (schema_analysis raw_sql : String)
    (raw_simplified : Option String) (executor : Option (String → QueryResult))
    (question : String) : SpotifyAnalysisResponse × List String :=
  match parseAnalysisStep jparse schema_analysis with
  | .error msg => ({ type := "error", content := msg }, [])
  | .ok analysis =>
    let sql_query := cleanupSqlMain raw_sql
    match executor with
    | some exec =>
      if sql_query ≠ "" then
        runWithRepair exec sql_query (raw_simplified.map cleanupSqlSimplified)
          analysis question
      else
        ({ type := "sql", content := sql_query }, [])
    | none => ({ type := "sql", content := sql_query }, [])

/-! ## The visualization mapper — src/dashboard/visualization_mapper.py

`map_to_visualization` receives the result rows and a visualization spec;
polars' `pl.DataFrame(data)` conversion (column order and dtype inference) is
external library behaviour and is passed in as the function `toDF`.  Each
`_create_*` helper is embedded as the resolution of its encoding channels: the
role names, the resolved field names and the one-letter Altair type codes that
the source interpolates into `f"{field}:{type[0]}"`.  The tooltip channel,
which always enumerates every DataFrame column, and the purely visual options
(heights, colours, sorting) are presentation and are not part of the model.
A Python `IndexError`/`TypeError` raised during resolution (e.g. `df.columns[1]`
on a one-column frame, or `type[0]` on an empty type string) is the `raised`
outcome. -/

/-- The polars dtypes the mapper inspects. -/
inductive Dtype where
  | int64
  | float64
  | date
  | datetime
  | boolean
  | utf8
  | other
deriving Repr, DecidableEq, BEq

/-- A DataFrame column: its name and dtype, in frame order. -/
structure Column where
  name : String
  dtype : Dtype
deriving Repr, DecidableEq, BEq

/-- One role entry of `visualization_spec["dimensions"]`: the optional `field`
and `type` strings (`none` models an absent key, for which the source's
`.get` defaults apply). -/
structure DimSpec where
  field? : Option String := none
  type? : Option String := none
deriving Repr, DecidableEq, BEq

/-- The `dimensions` mapping restricted to the roles the mapper reads
(`.get(role, {})` makes an absent role the empty `DimSpec`). -/
structure Dimensions where
  x : DimSpec := {}
  y : DimSpec := {}
  color : DimSpec := {}
  size : DimSpec := {}
deriving Repr, DecidableEq, BEq

/-- One resolved encoding channel: role, field name, Altair type letter. -/
structure Encoding where
  role : String
  field : String
  channel : Char
deriving Repr, DecidableEq, BEq

/-- The resolved chart: its kind and encoding channels. -/
structure ChartSpec where
  kind : String
  encodings : List Encoding
deriving Repr, DecidableEq, BEq

/-- The mapper's outcome: `noData` models the `return None` on empty input,
`raised` a Python exception during resolution. -/
inductive MapperOutcome where
  | noData
  | raised
  | chart (spec : ChartSpec)
deriving Repr, DecidableEq, BEq

/-- Python truthiness of an optional field string: `None` and `""` are falsy. -/
def truthyStr : Option String → Option String
  | some "" => none
  | o => o

/-- `df.columns`. -/
def colNames (df : List Column) : List String :=
  df.map (·.name)

/-- The mapper's `numeric_cols`: columns whose dtype is `Float64` or `Int64`. -/
def numericCols (df : List Column) : List String :=
  (df.filter (fun c => c.dtype = .float64 ∨ c.dtype = .int64)).map (·.name)

/-- The mapper's `other_cols`: columns not in `numeric_cols`. -/
def otherCols (df : List Column) : List String :=
  (colNames df).filter (fun n => ¬ (numericCols df).contains n)

/-- The mapper's `date_cols`: columns whose dtype is `Date` or `Datetime`. -/
def dateCols (df : List Column) : List String :=
  (df.filter (fun c => c.dtype = .date ∨ c.dtype = .datetime)).map (·.name)

/-- `df.columns[i]` (`none` models the `IndexError`). -/
def colAt (df : List Column) (i : Nat) : Option String :=
  (colNames df).get? i

/-- `type_string[0]` (`none` models the `IndexError` on an empty string). -/
def headChar (s : String) : Option Char :=
  s.toList.head?

/-- The Altair type letter for a role: `dimensions.get(role, {}).get("type",
default)[0]`. -/
def typeLetter (d : DimSpec) (dflt : String) : Option Char :=
  headChar (d.type?.getD dflt)

/-- The optional color channel appended by `if color_field:` blocks. -/
def colorChannel (dims : Dimensions) (dflt : String) : Option (List Encoding) :=
  match truthyStr dims.color.field? with
  | none => some []
  | some c =>
    match typeLetter dims.color dflt with
    | none => none
    | some ct => some [⟨"color", c, ct⟩]

/-- `_create_bar_chart` (lines 73-125): when either requested field is falsy,
fall back to the first numeric column for `x` (else `df.columns[0]`) and the
first non-numeric column for `y` (else `df.columns[1]`); a truthy requested
field is used as-is, never checked against `df.columns`. -/
def create_bar_chart (df : List Column) (dims : Dimensions) : MapperOutcome :=
  let x0 := truthyStr dims.x.field?
  let y0 := truthyStr dims.y.field?
  let fields : Option (String × String) :=
    if x0.isNone ∨ y0.isNone then
      let nc := numericCols df
      let oc := otherCols df
      match (match x0 with
             | some s => some s
             | none => match nc.head? with
                       | some n => some n
                       | none => colAt df 0),
            (match y0 with
             | some s => some s
             | none => match oc.head? with
                       | some n => some n
                       | none => colAt df 1) with
      | some x, some y => some (x, y)
      | _, _ => none
    else
      match x0, y0 with
      | some x, some y => some (x, y)
      | _, _ => none
  match fields with
  | none => .raised
  | some (x_field, y_field) =>
    match typeLetter dims.x "quantitative", typeLetter dims.y "nominal",
        colorChannel dims "nominal" with
    | some xt, some yt, some color =>
        .chart ⟨"bar", [⟨"x", x_field, xt⟩, ⟨"y", y_field, yt⟩] ++ color⟩
    | _, _, _ => .raised

/-- `_create_line_chart` (lines 127-176): fallback is the first date column
for `x` (else `df.columns[0]`) and the first numeric column for `y` (else
`df.columns[1]`). -/
def create_line_chart (df : List Column) (dims : Dimensions) : MapperOutcome :=
  let x0 := truthyStr dims.x.field?
  let y0 := truthyStr dims.y.field?
  let fields : Option (String × String) :=
    if x0.isNone ∨ y0.isNone then
      let dc := dateCols df
      let nc := numericCols df
      match (match x0 with
             | some s => some s
             | none => match dc.head? with
                       | some n => some n
                       | none => colAt df 0),
            (match y0 with
             | some s => some s
             | none => match nc.head? with
                       | some n => some n
                       | none => colAt df 1) with
      | some x, some y => some (x, y)
      | _, _ => none
    else
      match x0, y0 with
      | some x, some y => some (x, y)
      | _, _ => none
  match fields with
  | none => .raised
  | some (x_field, y_field) =>
    match typeLetter dims.x "temporal", typeLetter dims.y "quantitative",
        colorChannel dims "nominal" with
    | some xt, some yt, some color =>
        .chart ⟨"line", [⟨"x", x_field, xt⟩, ⟨"y", y_field, yt⟩] ++ color⟩
    | _, _, _ => .raised

/-- `_create_scatter_chart` (lines 178-233): fallbacks are the first and second
numeric columns (else `df.columns[0]` / `df.columns[1]`); the optional `size`
channel mirrors `color`. -/
def create_scatter_chart (df : List Column) (dims : Dimensions) : MapperOutcome :=
  let nc := numericCols df
  let xr : Option String :=
    match truthyStr dims.x.field? with
    | some s => some s
    | none => match nc.head? with
              | some n => some n
              | none => colAt df 0
  let yr : Option String :=
    match truthyStr dims.y.field? with
    | some s => some s
    | none => match nc.get? 1 with
              | some n => some n
              | none => colAt df 1
  match xr, yr with
  | some x_field, some y_field =>
    match typeLetter dims.x "quantitative", typeLetter dims.y "quantitative",
        colorChannel dims "nominal" with
    | some xt, some yt, some color =>
      let size : Option (List Encoding) :=
        match truthyStr dims.size.field? with
        | none => some []
        | some sFld =>
          match typeLetter dims.size "quantitative" with
          | none => none
          | some st => some [⟨"size", sFld, st⟩]
      match size with
      | some sz =>
          .chart ⟨"scatter", [⟨"x", x_field, xt⟩, ⟨"y", y_field, yt⟩] ++ color ++ sz⟩
      | none => .raised
    | _, _, _ => .raised
  | _, _ => .raised

/-- `_create_pie_chart` (lines 235-266): the angular measure comes from the
requested `y` field (fallback: first numeric column, else `df.columns[1]`), the
category colour from the requested `x` field or else the requested `color`
field (fallback: first non-numeric column, else `df.columns[0]`); the type
letters are hard-coded `Q` and `N`. -/
def create_pie_chart (df : List Column) (dims : Dimensions) : MapperOutcome :=
  let nc := numericCols df
  let oc := otherCols df
  let theta : Option String :=
    match truthyStr dims.y.field? with
    | some s => some s
    | none => match nc.head? with
              | some n => some n
              | none => colAt df 1
  let color : Option String :=
    match (match truthyStr dims.x.field? with
           | some s => some s
           | none => truthyStr dims.color.field?) with
    | some s => some s
    | none => match oc.head? with
              | some n => some n
              | none => colAt df 0
  match theta, color with
  | some theta_field, some color_field =>
      .chart ⟨"pie", [⟨"theta", theta_field, 'Q'⟩, ⟨"color", color_field, 'N'⟩]⟩
  | _, _ => .raised

/-- `_create_heatmap` (lines 268-308): when any of the three requested fields
is falsy, `x` falls back to the first non-numeric column (else `df.columns[0]`),
`y` to the second non-numeric column (else `df.columns[1]`) and `color` to the
first numeric column (else `df.columns[2]`). -/
def create_heatmap (df : List Column) (dims : Dimensions) : MapperOutcome :=
  let x0 := truthyStr dims.x.field?
  let y0 := truthyStr dims.y.field?
  let c0 := truthyStr dims.color.field?
  let fields : Option (String × String × String) :=
    if x0.isNone ∨ y0.isNone ∨ c0.isNone then
      let nc := numericCols df
      let oc := otherCols df
      match (match x0 with
             | some s => some s
             | none => match oc.head? with
                       | some n => some n
                       | none => colAt df 0),
            (match y0 with
             | some s => some s
             | none => match oc.get? 1 with
                       | some n => some n
                       | none => colAt df 1),
            (match c0 with
             | some s => some s
             | none => match nc.head? with
                       | some n => some n
                       | none => colAt df 2) with
      | some x, some y, some c => some (x, y, c)
      | _, _, _ => none
    else
      match x0, y0, c0 with
      | some x, some y, some c => some (x, y, c)
      | _, _, _ => none
  match fields with
  | none => .raised
  | some (x_field, y_field, color_field) =>
    match typeLetter dims.x "ordinal", typeLetter dims.y "ordinal",
        typeLetter dims.color "quantitative" with
    | some xt, some yt, some ct =>
        .chart ⟨"heatmap",
          [⟨"x", x_field, xt⟩, ⟨"y", y_field, yt⟩, ⟨"color", color_field, ct⟩]⟩
    | _, _, _ => .raised

/-- `_create_area_chart` (lines 310-361): same fallbacks as the line chart. -/
def create_area_chart (df : List Column) (dims : Dimensions) : MapperOutcome :=
  let dc := dateCols df
  let nc := numericCols df
  let xr : Option String :=
    match truthyStr dims.x.field? with
    | some s => some s
    | none => match dc.head? with
              | some n => some n
              | none => colAt df 0
  let yr : Option String :=
    match truthyStr dims.y.field? with
    | some s => some s
    | none => match nc.head? with
              | some n => some n
              | none => colAt df 1
  match xr, yr with
  | some x_field, some y_field =>
    match typeLetter dims.x "temporal", typeLetter dims.y "quantitative",
        colorChannel dims "nominal" with
    | some xt, some yt, some color =>
        .chart ⟨"area", [⟨"x", x_field, xt⟩, ⟨"y", y_field, yt⟩] ++ color⟩
    | _, _, _ => .raised
  | _, _ => .raised

/-- `_create_polar_chart` (lines 363-412): the angle comes from the requested
`x` field (fallback: first non-numeric, else `df.columns[0]`), the radius from
the requested `y` field (fallback: first numeric, else `df.columns[1]`); the
colour channel defaults to the angle field with letter `N` when no colour field
is requested. -/
def create_polar_chart (df : List Column) (dims : Dimensions) : MapperOutcome :=
  let nc := numericCols df
  let oc := otherCols df
  let angle : Option String :=
    match truthyStr dims.x.field? with
    | some s => some s
    | none => match oc.head? with
              | some n => some n
              | none => colAt df 0
  let radius : Option String :=
    match truthyStr dims.y.field? with
    | some s => some s
    | none => match nc.head? with
              | some n => some n
              | none => colAt df 1
  match angle, radius with
  | some angle_field, some radius_field =>
    let color : Option Encoding :=
      match truthyStr dims.color.field? with
      | some c =>
        match typeLetter dims.color "nominal" with
        | none => none
        | some ct => some ⟨"color", c, ct⟩
      | none => some ⟨"color", angle_field, 'N'⟩
    match color with
    | some cEnc =>
        .chart ⟨"polar",
          [⟨"theta", angle_field, 'N'⟩, ⟨"radius", radius_field, 'Q'⟩, cEnc]⟩
    | none => .raised
  | _, _ => .raised

/-- `_create_ridgeline_plot` (lines 414-454): the colour field is the requested
`color` field or else the **requested** `y` field before fallback (a falsy
value is rendered verbatim by the f-string, `None` becoming the literal column
name `None`); `x` falls back to the first numeric column (else `df.columns[0]`)
and `y` to the first non-numeric column (else `df.columns[1]`). -/
def create_ridgeline_plot (df : List Column) (dims : Dimensions) : MapperOutcome :=
  let nc := numericCols df
  let oc := otherCols df
  let color_field : String :=
    match truthyStr dims.color.field? with
    | some c => c
    | none =>
      match dims.y.field? with
      | some s => s
      | none => "None"
  let xr : Option String :=
    match truthyStr dims.x.field? with
    | some s => some s
    | none => match nc.head? with
              | some n => some n
              | none => colAt df 0
  let yr : Option String :=
    match truthyStr dims.y.field? with
    | some s => some s
    | none => match oc.head? with
              | some n => some n
              | none => colAt df 1
  match xr, yr with
  | some x_field, some y_field =>
    match typeLetter dims.x "quantitative", typeLetter dims.y "ordinal" with
    | some xt, some yt =>
        .chart ⟨"ridgeline",
          [⟨"x", x_field, xt⟩, ⟨"y", y_field, yt⟩, ⟨"color", color_field, 'N'⟩]⟩
    | _, _ => .raised
  | _, _ => .raised

/-- `map_to_visualization` (lines 14-60): `None` on empty data, otherwise
dispatch on the lower-cased `visualization_spec.get("type", "bar")`, with
unrecognised kinds defaulting to the bar chart.  `toDF` models
`pl.DataFrame(data)` (polars, external). -/
def map_to_visualization (data : List Row) (toDF : List Row → List Column)
    (vizType? : Option String) (dims : Dimensions) : MapperOutcome :=
  if data = [] then .noData
  else
    let df := toDF data
    let viz_type := pyLower (vizType?.getD "bar")
    if viz_type = "bar" ∨ viz_type = "stacked bar" then create_bar_chart df dims
    else if viz_type = "line" then create_line_chart df dims
    else if viz_type = "scatter" then create_scatter_chart df dims
    else if viz_type = "pie" ∨ viz_type = "donut" then create_pie_chart df dims
    else if viz_type = "heatmap" then create_heatmap df dims
    else if viz_type = "area" then create_area_chart df dims
    else if viz_type = "polar" then create_polar_chart df dims
    else if viz_type = "ridgeline" then create_ridgeline_plot df dims
    else create_bar_chart df dims

/-! ## Claim C10 — characterization of `validate_query` -/

/-- C10: `validate_query` returns `true` iff the uppercased query starts with
`SELECT` and contains none of the ten dangerous keywords as a substring
anywhere; in particular, a legitimate read-only `SELECT` whose text merely
contains a keyword inside an identifier (a column named `created_at` contains
`CREATE`) is rejected. -/
theorem C10_validate_query_characterization :
    (∀ q : String, validate_query q = true ↔
      (pyStartsWith (pyUpper q) "SELECT" = true ∧
        ∀ kw ∈ dangerous_keywords, pyContains (pyUpper q) kw = false)) ∧
    validate_query "SELECT created_at FROM streaming_history" = false := by
  constructor
  · intro q
    unfold validate_query
    by_cases hA :
        dangerous_keywords.any (fun keyword => pyContains (pyUpper q) keyword) = true
    · rw [List.any_eq_true] at hA
      obtain ⟨kw, hkw, hc⟩ := hA
      simp only [List.any_eq_true]
      constructor
      · intro h
        rw [if_pos ⟨kw, hkw, hc⟩] at h
        exact absurd h (by simp)
      · rintro ⟨-, hall⟩
        exact absurd (hall kw hkw) (by simp [hc])
    · rw [if_neg (by simpa using hA)]
      by_cases hB : pyStartsWith (pyUpper q) "SELECT" = true
      · rw [if_neg (by simp [hB])]
        simp only [true_iff, hB, true_and]
        intro kw hkw
        by_contra hc
        exact hA (List.any_eq_true.mpr ⟨kw, hkw, by simpa using hc⟩)
      · rw [if_pos (by simpa using hB)]
        constructor
        · intro h
          exact absurd h (by simp)
        · rintro ⟨hs, -⟩
          exact absurd hs hB
  · decide

/-! ## Claim C1 — read-only enforcement on the pipeline's executor path -/

/-- C1 counterexample: the statement `DROP TABLE streaming_history` (which
`validate_query` would reject) is nevertheless forwarded verbatim to the store
by `execute_visualization_query` — the executor `main.py` passes to
`analyze_query` — and the store's rows come back, so the operation neither
fails the statement nor withholds it from the store. -/
theorem C1_counterexample :
    (execute_visualization_query
        (fun _ => .ok [[("result", "executed")]])
        "DROP TABLE streaming_history").2 ≠ [] ∧
    (execute_visualization_query
        (fun _ => .ok [[("result", "executed")]])
        "DROP TABLE streaming_history").2 = ["DROP TABLE streaming_history"] ∧
    (execute_visualization_query
        (fun _ => .ok [[("result", "executed")]])
        "DROP TABLE streaming_history").1 = [[("result", "executed")]] := by
  refine ⟨by decide, rfl, rfl⟩

/-- C1 (amended): `validate_query` rejects every string that contains one of
the ten dangerous keywords (case-insensitive) or does not start with `SELECT`,
but the executor actually passed to `analyze_query`
(`execute_visualization_query`) performs no such validation: it forwards every
string to the underlying store unconditionally, and a store failure yields an
empty result set rather than a FAILED result. -/
theorem C1_readonly_enforcement (s : String)
    (store : String → Except String (List Row))
    (h : (∃ kw ∈ dangerous_keywords, pyContains (pyUpper s) kw = true) ∨
         ¬ pyStartsWith (pyUpper s) "SELECT" = true) :
    validate_query s = false ∧
    (execute_visualization_query store s).2 = [s] := by
  constructor
  · unfold validate_query
    by_cases hA :
        dangerous_keywords.any (fun keyword => pyContains (pyUpper s) keyword) = true
    · rw [if_pos (by simpa using hA)]
    · rw [if_neg (by simpa using hA)]
      rcases h with ⟨kw, hkw, hc⟩ | hsel
      · exact absurd (List.any_eq_true.mpr ⟨kw, hkw, by simpa using hc⟩) hA
      · rw [if_pos (by simpa using hsel)]
  · unfold execute_visualization_query
    cases store s <;> rfl

/-- C1 witness: the amended theorem applied to `DROP TABLE tracks`. -/
theorem C1_readonly_enforcement_witness :
    validate_query "DROP TABLE tracks" = false ∧
    (execute_visualization_query (fun _ => .ok []) "DROP TABLE tracks").2
      = ["DROP TABLE tracks"] :=
  C1_readonly_enforcement "DROP TABLE tracks" (fun _ => .ok [])
    (Or.inl ⟨"DROP", by decide, by decide⟩)

/-! ## Claim C9 — the SQL cleanup is not a one-layer strip -/

/-- C9 counterexample: on `` ``SELECT 1`` `` the source's cleanup removes
**both** layers of enclosing backticks (Python `strip` removes all enclosing
occurrences), while the spec's "exactly one layer" cleanup would leave one. -/
theorem C9_counterexample :
    cleanupSqlMain "``SELECT 1``" = "SELECT 1" ∧
    cleanupSqlSpec "``SELECT 1``" = "`SELECT 1`" ∧
    cleanupSqlMain "``SELECT 1``" ≠ cleanupSqlSpec "``SELECT 1``" := by
  refine ⟨by decide, by decide, by decide⟩

/-- C9 (amended): both post-processing sites (the synthesize path, lines
176-177, and the simplify path, lines 300-301) apply the same cleanup: strip
surrounding whitespace, then strip **all** enclosing backticks, then all
enclosing single quotes, then all enclosing double quotes — a single pass
through that sequence, not iterated (a second application of the pass can
strip further, e.g. whitespace uncovered by a removed backtick). -/
theorem C9_cleanup_characterization :
    (∀ s, cleanupSqlMain s = cleanupSqlSimplified s) ∧
    cleanupSqlMain "``SELECT 1``" = "SELECT 1" ∧
    cleanupSqlMain "  `SELECT 1`  " = "SELECT 1" ∧
    (∃ s, cleanupSqlMain (cleanupSqlMain s) ≠ cleanupSqlMain s) := by
  refine ⟨fun s => rfl, by decide, by decide, ⟨"` SELECT 1`", by decide⟩⟩

/-! ## Claims C3 and C7 — repair-loop call bound and envelope invariants -/

/-- Helper: the repair loop hands the executor at most two statements. -/
theorem runWithRepair_calls_le_two (executor : String → QueryResult)
    (sql_query : String) (simplified_query : Option String) (analysis : Json)
    (question : String) :
    (runWithRepair executor sql_query simplified_query analysis question).2.length ≤ 2 := by
  simp only [runWithRepair]
  split
  · simp
  · split
    · split
      · split <;> simp
      · simp
    · simp

/-- C3: for every input — in particular whenever the primary query returns
zero rows, however often a zero-row outcome would recur — `analyze_query`
invokes the store executor at most twice in total: once for the primary
candidate and at most once for one simplified candidate. -/
theorem C3_single_retry_bound (jparse : String → Option Json)
    (schema_analysis raw_sql : String) (raw_simplified : Option String)
    (executor : Option (String → QueryResult)) (question : String) :
    (analyze_query jparse schema_analysis raw_sql raw_simplified executor
      question).2.length ≤ 2 := by
  simp only [analyze_query]
  split
  · simp
  · split
    · split
      · apply runWithRepair_calls_le_two
      · simp
    · simp

/-- Helper: every envelope the repair loop produces satisfies the envelope
invariants. -/
theorem runWithRepair_envelope_invariants (executor : String → QueryResult)
    (sql_query : String) (simplified_query : Option String) (analysis : Json)
    (question : String) :
    (((runWithRepair executor sql_query simplified_query analysis question).1.type
          = "error" →
        (runWithRepair executor sql_query simplified_query analysis question).1.data
          = none ∧
        (runWithRepair executor sql_query simplified_query analysis question).1.visualization
          = none) ∧
     ((runWithRepair executor sql_query simplified_query analysis question).1.type
          = "visualization" →
        ((runWithRepair executor sql_query simplified_query analysis question).1.data).isSome
          = true)) := by
  simp only [runWithRepair, vizResponse]
  split
  · exact ⟨fun _ => ⟨rfl, rfl⟩, fun h => by simp at h⟩
  · split
    · split
      · split
        · exact ⟨fun h => by simp at h, fun _ => rfl⟩
        · exact ⟨fun h => by simp at h, fun _ => rfl⟩
      · exact ⟨fun h => by simp at h, fun _ => rfl⟩
    · exact ⟨fun h => by simp at h, fun _ => rfl⟩

/-- C7: for every terminal outcome of `analyze_query`, an `error`-typed
envelope carries neither `data` nor `visualization`, and a
`visualization`-typed envelope always carries `data` (possibly the empty row
list). -/
theorem C7_envelope_invariants (jparse : String → Option Json)
    (schema_analysis raw_sql : String) (raw_simplified : Option String)
    (executor : Option (String → QueryResult)) (question : String) :
    (((analyze_query jparse schema_analysis raw_sql raw_simplified executor
          question).1.type = "error" →
        (analyze_query jparse schema_analysis raw_sql raw_simplified executor
          question).1.data = none ∧
        (analyze_query jparse schema_analysis raw_sql raw_simplified executor
          question).1.visualization = none) ∧
     ((analyze_query jparse schema_analysis raw_sql raw_simplified executor
          question).1.type = "visualization" →
        ((analyze_query jparse schema_analysis raw_sql raw_simplified executor
          question).1.data).isSome = true)) := by
  simp only [analyze_query]
  split
  · exact ⟨fun _ => ⟨rfl, rfl⟩, fun h => by simp at h⟩
  · split
    · split
      · apply runWithRepair_envelope_invariants
      · exact ⟨fun h => by simp at h, fun h => by simp at h⟩
    · exact ⟨fun h => by simp at h, fun h => by simp at h⟩

/-! ## Claims C8, C4 and C5 — the repair loop's retry policy -/

/-- A well-formed analysis plan used by the concrete witnesses below. -/
def samplePlan : Json :=
  Json.obj
    [("tables", Json.arr [Json.str "streaming_history"]),
     ("columns", Json.arr [Json.str "artist", Json.str "ms_played"]),
     ("analysis_type", Json.str "aggregation"),
     ("visualization", Json.obj
        [("type", Json.str "bar"),
         ("dimensions", Json.obj
            [("x", Json.obj [("field", Json.str "total_ms"),
                             ("type", Json.str "quantitative")]),
             ("y", Json.obj [("field", Json.str "artist"),
                             ("type", Json.str "nominal")])])])]

/-- C8: when the simplify pass produces (after cleanup) an empty string or a
string equal to the primary SQL candidate, `analyze_query` skips the retry
entirely: the executor — and with it the store — is invoked exactly once, on
the primary candidate. -/
theorem C8_simplification_idempotence_guard (jparse : String → Option Json)
    (schema_analysis raw_sql raw_simplified : String)
    (exec : String → QueryResult) (question : String) (analysis : Json)
    (hparse : parseAnalysisStep jparse schema_analysis = .ok analysis)
    (hsql : cleanupSqlMain raw_sql ≠ "")
    (hsucc : (exec (cleanupSqlMain raw_sql)).success = true)
    (hempty : (exec (cleanupSqlMain raw_sql)).data = [])
    (hsimp : cleanupSqlSimplified raw_simplified = "" ∨
             cleanupSqlSimplified raw_simplified = cleanupSqlMain raw_sql) :
    (analyze_query jparse schema_analysis raw_sql (some raw_simplified)
        (some exec) question).2 = [cleanupSqlMain raw_sql] := by
  simp only [analyze_query, hparse]
  rw [if_pos hsql]
  simp only [runWithRepair, hsucc, hempty, Option.map]
  rw [if_neg (by simp)]
  have hguard : ¬(cleanupSqlSimplified raw_simplified ≠ "" ∧
      cleanupSqlSimplified raw_simplified ≠ cleanupSqlMain raw_sql) := by
    rcases hsimp with h | h
    · rintro ⟨hne, -⟩
      exact hne h
    · rintro ⟨-, hne⟩
      exact hne h
  rw [if_neg hguard]

/-- C8 witness: a simplify pass that reproduces the primary SQL verbatim is
not re-executed. -/
theorem C8_simplification_idempotence_guard_witness :
    parseAnalysisStep (fun _ => some samplePlan) "resp" = .ok samplePlan ∧
    (analyze_query (fun _ => some samplePlan) "resp"
        "SELECT artist FROM streaming_history"
        (some "SELECT artist FROM streaming_history")
        (some (fun _ => { success := true, data := [], error := "" }))
        "top artists").2 = ["SELECT artist FROM streaming_history"] :=
  ⟨rfl,
   C8_simplification_idempotence_guard (fun _ => some samplePlan) "resp"
     "SELECT artist FROM streaming_history" "SELECT artist FROM streaming_history"
     (fun _ => { success := true, data := [], error := "" }) "top artists"
     samplePlan rfl (by decide) rfl rfl (Or.inr (by decide))⟩

/-- C4 counterexample: with a primary candidate that succeeds with zero rows
and a (different, non-empty) simplified candidate that also succeeds with zero
rows, the repair loop's envelope has type `visualization` — not the claimed
`text` — with the analysis-type summary as content, the primary SQL and an
empty data list. -/
theorem C4_counterexample :
    ((runWithRepair (fun _ => { success := true, data := [], error := "" })
        "SELECT artist FROM streaming_history WHERE 1=0"
        (some "SELECT artist FROM streaming_history")
        samplePlan "top artists").1.type = "visualization") ∧
    ((runWithRepair (fun _ => { success := true, data := [], error := "" })
        "SELECT artist FROM streaming_history WHERE 1=0"
        (some "SELECT artist FROM streaming_history")
        samplePlan "top artists").1.type ≠ "text") ∧
    ((runWithRepair (fun _ => { success := true, data := [], error := "" })
        "SELECT artist FROM streaming_history WHERE 1=0"
        (some "SELECT artist FROM streaming_history")
        samplePlan "top artists").1.sql
      = some "SELECT artist FROM streaming_history WHERE 1=0") ∧
    ((runWithRepair (fun _ => { success := true, data := [], error := "" })
        "SELECT artist FROM streaming_history WHERE 1=0"
        (some "SELECT artist FROM streaming_history")
        samplePlan "top artists").1.data = some []) ∧
    ((runWithRepair (fun _ => { success := true, data := [], error := "" })
        "SELECT artist FROM streaming_history WHERE 1=0"
        (some "SELECT artist FROM streaming_history")
        samplePlan "top artists").1.content = "Analysis of aggregation") := by
  refine ⟨rfl, by decide, rfl, rfl, rfl⟩

/-- C4 (amended): if the primary query returns zero rows with no execution
error and the simplified query (non-empty, different from the primary) also
returns zero rows with no execution error, the envelope has type
`visualization` — not `text` and not `error` — its `sql` field equals the
primary query (not the simplified one), and its `data` is the empty row list;
the content is the analysis-type summary, with no no-data message. -/
theorem C4_empty_after_retry (exec : String → QueryResult)
    (sql_query sq : String) (analysis : Json) (question : String)
    (hps : (exec sql_query).success = true)
    (hpd : (exec sql_query).data = [])
    (hne : sq ≠ "") (hdiff : sq ≠ sql_query)
    ( _hss : (exec sq).success = true)
    (hsd : (exec sq).data = []) :
    ((runWithRepair exec sql_query (some sq) analysis question).1.type
        = "visualization") ∧
    ((runWithRepair exec sql_query (some sq) analysis question).1.sql
        = some sql_query) ∧
    ((runWithRepair exec sql_query (some sq) analysis question).1.data
        = some []) := by
  simp only [runWithRepair, hps, hpd]
  rw [if_neg (by simp)]
  rw [if_pos ⟨hne, hdiff⟩]
  rw [if_neg (by simp [hsd])]
  exact ⟨rfl, rfl, by simp [vizResponse, hsd]⟩

/-- C4 witness: the amended theorem at a concrete executor for which both
candidates succeed with zero rows. -/
theorem C4_empty_after_retry_witness :
    ((runWithRepair (fun _ => { success := true, data := [], error := "" })
        "SELECT a FROM t WHERE 1=0" (some "SELECT a FROM t")
        samplePlan "q").1.type = "visualization") ∧
    ((runWithRepair (fun _ => { success := true, data := [], error := "" })
        "SELECT a FROM t WHERE 1=0" (some "SELECT a FROM t")
        samplePlan "q").1.sql = some "SELECT a FROM t WHERE 1=0") ∧
    ((runWithRepair (fun _ => { success := true, data := [], error := "" })
        "SELECT a FROM t WHERE 1=0" (some "SELECT a FROM t")
        samplePlan "q").1.data = some []) :=
  C4_empty_after_retry (fun _ => { success := true, data := [], error := "" })
    "SELECT a FROM t WHERE 1=0" "SELECT a FROM t" samplePlan "q"
    rfl rfl (by decide) (by decide) rfl rfl

/-- C5: when the primary candidate succeeds with zero rows and the simplified
candidate hits an execution error (an unsuccessful result carrying no rows),
the repair loop reports the primary SQL together with its empty result: the
envelope is a `visualization`-typed response (never `error`-typed), `sql` is
the primary query and `data` is the empty row list — the failed simplified
attempt is discarded, not surfaced. -/
theorem C5_simplified_failure_swallowed (exec : String → QueryResult)
    (sql_query sq : String) (analysis : Json) (question : String)
    (hps : (exec sql_query).success = true)
    (hpd : (exec sql_query).data = [])
    (hne : sq ≠ "") (hdiff : sq ≠ sql_query)
    (hfs : (exec sq).success = false)
    (hfd : (exec sq).data = []) :
    ((runWithRepair exec sql_query (some sq) analysis question).1.type
        = "visualization") ∧
    ((runWithRepair exec sql_query (some sq) analysis question).1.type
        ≠ "error") ∧
    ((runWithRepair exec sql_query (some sq) analysis question).1.sql
        = some sql_query) ∧
    ((runWithRepair exec sql_query (some sq) analysis question).1.data
        = some []) := by
  simp only [runWithRepair, hps, hpd]
  rw [if_neg (by simp)]
  rw [if_pos ⟨hne, hdiff⟩]
  rw [if_neg (by simp [hfs])]
  exact ⟨rfl, by simp [vizResponse], rfl, by simp [vizResponse, hfd]⟩

/-- C5 witness: a concrete executor that fails the simplified candidate. -/
theorem C5_simplified_failure_swallowed_witness :
    ((runWithRepair
        (fun s => if s = "SELECT a FROM t WHERE 1=0"
                  then { success := true, data := [], error := "" }
                  else { success := false, data := [], error := "Binder Error" })
        "SELECT a FROM t WHERE 1=0" (some "SELECT a FROM t")
        samplePlan "q").1.type = "visualization") ∧
    ((runWithRepair
        (fun s => if s = "SELECT a FROM t WHERE 1=0"
                  then { success := true, data := [], error := "" }
                  else { success := false, data := [], error := "Binder Error" })
        "SELECT a FROM t WHERE 1=0" (some "SELECT a FROM t")
        samplePlan "q").1.type ≠ "error") ∧
    ((runWithRepair
        (fun s => if s = "SELECT a FROM t WHERE 1=0"
                  then { success := true, data := [], error := "" }
                  else { success := false, data := [], error := "Binder Error" })
        "SELECT a FROM t WHERE 1=0" (some "SELECT a FROM t")
        samplePlan "q").1.sql = some "SELECT a FROM t WHERE 1=0") ∧
    ((runWithRepair
        (fun s => if s = "SELECT a FROM t WHERE 1=0"
                  then { success := true, data := [], error := "" }
                  else { success := false, data := [], error := "Binder Error" })
        "SELECT a FROM t WHERE 1=0" (some "SELECT a FROM t")
        samplePlan "q").1.data = some []) :=
  C5_simplified_failure_swallowed
    (fun s => if s = "SELECT a FROM t WHERE 1=0"
              then { success := true, data := [], error := "" }
              else { success := false, data := [], error := "Binder Error" })
    "SELECT a FROM t WHERE 1=0" "SELECT a FROM t" samplePlan "q"
    (by decide) (by decide) (by decide) (by decide) (by decide) (by decide)

/-! ## Claim C2 — plan-validation totality -/

/-- Helper: when the membership pass reports no missing field, every required
field is a member. -/
theorem missingRequired_eq_nil (fields : List String) (j : Json)
    (h : missingRequired fields j = some []) :
    ∀ f ∈ fields, pyIn f j = some true := by
  induction fields with
  | nil =>
    intro f hf
    exact absurd hf (List.not_mem_nil f)
  | cons g rest ih =>
    intro f hf
    unfold missingRequired at h
    cases hp : pyIn g j with
    | none =>
      rw [hp] at h
      simp at h
    | some present =>
      cases hm : missingRequired rest j with
      | none =>
        rw [hp, hm] at h
        simp at h
      | some missing =>
        rw [hp, hm] at h
        simp only [Option.some.injEq] at h
        cases present with
        | false => simp at h
        | true =>
          simp only [if_true] at h
          rcases List.mem_cons.mp hf with rfl | hf'
          · exact hp
          · exact ih (by rw [hm, h]) f hf'

/-- C2: whatever text the language-model collaborator returns during intent
analysis, and whatever `json.loads` makes of it, `analyze_query`'s parse step
either fails with an analysis error or accepts a plan in which all four
required fields (`tables`, `columns`, `analysis_type`, `visualization`) are
present and `visualization` is itself a dict containing both `type` and
`dimensions` — never a partially-populated or silently defaulted plan. -/
theorem C2_plan_validation_totality (jparse : String → Option Json)
    (response : String) (analysis : Json)
    (h : parseAnalysisStep jparse response = .ok analysis) :
    (∀ f ∈ required_fields, pyIn f analysis = some true) ∧
    ∃ viz, jGet analysis "visualization" = some viz ∧ viz.isDict = true ∧
      pyIn "type" viz = some true ∧ pyIn "dimensions" viz = some true := by
  simp only [parseAnalysisStep] at h
  split at h
  · exact absurd h (by simp)
  · rename_i j hj
    unfold validateAnalysis at h
    split at h
    · exact absurd h (by simp)
    · rename_i missing_fields hmr
      split at h
      · exact absurd h (by simp)
      · rename_i hnotne
        split at h
        · exact absurd h (by simp)
        · rename_i viz hviz
          split at h
          · rename_i hcond
            obtain ⟨hdict, htype, hdims⟩ := hcond
            obtain rfl : j = analysis := by
              simpa using h
            have hmissing : missingRequired required_fields j = some [] := by
              rw [hmr]
              simp only [ne_eq, not_not] at hnotne
              rw [hnotne]
            exact ⟨missingRequired_eq_nil required_fields j hmissing,
              ⟨viz, hviz, hdict, htype, hdims⟩⟩
          · exact absurd h (by simp)

/-- C2 witness: the parse step accepts a concrete well-formed plan wrapped in
prose, and the accepted plan carries all required fields. -/
theorem C2_plan_validation_totality_witness :
    parseAnalysisStep (fun _ => some samplePlan) "Here is the analysis."
      = .ok samplePlan ∧
    ((∀ f ∈ required_fields, pyIn f samplePlan = some true) ∧
     ∃ viz, jGet samplePlan "visualization" = some viz ∧ viz.isDict = true ∧
       pyIn "type" viz = some true ∧ pyIn "dimensions" viz = some true) :=
  ⟨rfl, C2_plan_validation_totality (fun _ => some samplePlan)
    "Here is the analysis." samplePlan rfl⟩

/-! ## Claim C6 — mapper field-safety -/

/-- Helper: a non-empty field string is truthy. -/
theorem truthyStr_some (s : String) (h : s ≠ "") :
    truthyStr (some s) = some s := by
  unfold truthyStr
  split
  · rename_i heq
    injection heq with heq
    exact absurd heq h
  · rfl

/-- Helper: a non-empty string has a first character. -/
theorem headChar_isSome_of_ne_empty (s : String) (h : s ≠ "") :
    ∃ c, headChar s = some c := by
  obtain ⟨cs⟩ := s
  cases cs with
  | nil => exact absurd rfl h
  | cons c rest => exact ⟨c, rfl⟩

/-- Helper: the Altair type letter resolves whenever neither the requested
type string nor the default is empty. -/
theorem typeLetter_isSome (d : DimSpec) (dflt : String) (hdflt : dflt ≠ "")
    (h : d.type? ≠ some "") : ∃ c, typeLetter d dflt = some c := by
  unfold typeLetter
  cases ht : d.type? with
  | none => simpa using headChar_isSome_of_ne_empty dflt hdflt
  | some t =>
    have htne : t ≠ "" := fun hteq => h (by rw [ht, hteq])
    simpa using headChar_isSome_of_ne_empty t htne

/-- C6 counterexample (the spec's own scenario F): on the single row
`{genre: rock, count: 42}` with the requested field `missing_col` for role
`x`, the bar-chart mapper emits an encoding that references `missing_col`,
a field that is **not** among the rows' columns — no type-compatible fallback
replaces it. -/
theorem C6_mapper_references_missing_field :
    map_to_visualization [[("genre", "rock"), ("count", "42")]]
      (fun _ => [⟨"genre", Dtype.utf8⟩, ⟨"count", Dtype.int64⟩]) (some "bar")
      { x := { field? := some "missing_col" }, y := { field? := some "count" } }
      = .chart ⟨"bar", [⟨"x", "missing_col", 'q'⟩, ⟨"y", "count", 'n'⟩]⟩ ∧
    ¬ ("missing_col" ∈ colNames [⟨"genre", Dtype.utf8⟩, ⟨"count", Dtype.int64⟩]) := by
  refine ⟨by decide, by decide⟩

/-- C6 (amended): for non-empty rows and a bar-kind visualization intent whose
`x` and `y` fields are non-empty strings, the mapper uses the requested field
names verbatim in its encodings — whether or not they exist among the rows'
columns; the type-compatible fallback scan over the rows' columns is applied
only to roles whose requested field is absent or empty. -/
theorem C6_bar_requested_fields_verbatim (data : List Row)
    (toDF : List Row → List Column) (dims : Dimensions) (sx sy : String)
    (hdata : data ≠ [])
    (hx : dims.x.field? = some sx) (hsx : sx ≠ "")
    (hy : dims.y.field? = some sy) (hsy : sy ≠ "")
    (hc : dims.color.field? = none)
    (hxt : dims.x.type? ≠ some "") (hyt : dims.y.type? ≠ some "") :
    ∃ xt yt, map_to_visualization data toDF (some "bar") dims
      = .chart ⟨"bar", [⟨"x", sx, xt⟩, ⟨"y", sy, yt⟩]⟩ := by
  have htx : truthyStr dims.x.field? = some sx := by
    rw [hx]
    exact truthyStr_some sx hsx
  have hty : truthyStr dims.y.field? = some sy := by
    rw [hy]
    exact truthyStr_some sy hsy
  obtain ⟨xt, hxl⟩ := typeLetter_isSome dims.x "quantitative" (by decide) hxt
  obtain ⟨yt, hyl⟩ := typeLetter_isSome dims.y "nominal" (by decide) hyt
  refine ⟨xt, yt, ?_⟩
  simp only [map_to_visualization]
  rw [if_neg hdata]
  rw [if_pos (Or.inl (show pyLower ((some "bar").getD "bar") = "bar" by decide))]
  simp only [create_bar_chart, htx, hty]
  rw [if_neg (by simp)]
  simp only [hxl, hyl, colorChannel, hc]
  simp [truthyStr]

/-- C6 witness: the amended theorem at the spec's scenario F, where the
requested `x` field is absent from the rows' columns yet used verbatim. -/
theorem C6_bar_requested_fields_verbatim_witness :
    (([[("genre", "rock"), ("count", "42")]] : List Row) ≠ []) ∧
    (∃ xt yt, map_to_visualization [[("genre", "rock"), ("count", "42")]]
        (fun _ => [⟨"genre", Dtype.utf8⟩, ⟨"count", Dtype.int64⟩]) (some "bar")
        { x := { field? := some "missing_field" }, y := { field? := some "count" } }
      = .chart ⟨"bar", [⟨"x", "missing_field", xt⟩, ⟨"y", "count", yt⟩]⟩) :=
  ⟨by decide,
   C6_bar_requested_fields_verbatim [[("genre", "rock"), ("count", "42")]]
     (fun _ => [⟨"genre", Dtype.utf8⟩, ⟨"count", Dtype.int64⟩])
     { x := { field? := some "missing_field" }, y := { field? := some "count" } }
     "missing_field" "count" (by decide) rfl (by decide) rfl (by decide) rfl
     (by decide) (by decide)⟩

end SpotifyJourney

